import Mathlib

/-!
Shallow embedding of the DriftGuardAI Risk & Governance Evaluation Engine
(backend/app/services: drift_service, fairness_service, risk_service,
governance_service, audit_service; backend/app/api: governance, simulation).

Numbers are embedded as exact rationals (`ℚ`); Python `round(x, 2)` is
embedded as `round2`.  Python's `round` breaks exact half-ties to the even
digit; the properties verified here apply the identical rounding function on
both sides of each equation, so the tie-breaking rule is never observable.
Database tables are embedded as in-memory lists inside a `DB` record and each
stateful service function returns its result together with the successor `DB`.
SQLAlchemy `order_by(...).first()/limit(n)` queries are embedded as a stable
insertion sort by the timestamp key followed by `head?`/`take n`.
-/

namespace DriftGuard

/-- Python `round(x, 2)`. -/
def round2 (x : ℚ) : ℚ := ((round (100 * x) : ℤ) : ℚ) / 100

/-- Python `round(x, 4)`. -/
def round4 (x : ℚ) : ℚ := ((round (10000 * x) : ℤ) : ℚ) / 10000

/-- Stable ascending insertion by a `ℕ`-valued key. -/
def insertAsc {α : Type} (key : α → ℕ) (x : α) : List α → List α
  | [] => [x]
  | y :: ys => if key x ≤ key y then x :: y :: ys else y :: insertAsc key x ys

/-- Stable ascending sort by a `ℕ`-valued key (models SQL `ORDER BY key ASC`). -/
def sortAsc {α : Type} (key : α → ℕ) : List α → List α
  | [] => []
  | x :: xs => insertAsc key x (sortAsc key xs)

/-- Stable descending insertion by a `ℕ`-valued key. -/
def insertDesc {α : Type} (key : α → ℕ) (x : α) : List α → List α
  | [] => [x]
  | y :: ys => if key x ≥ key y then x :: y :: ys else y :: insertDesc key x ys

/-- Stable descending sort by a `ℕ`-valued key (models SQL `ORDER BY key DESC`). -/
def sortDesc {α : Type} (key : α → ℕ) : List α → List α
  | [] => []
  | x :: xs => insertDesc key x (sortDesc key xs)

/-- A JSON value stored in `PredictionLog.input_features`.  The drift service
only ever consumes a feature value through Python `float(v)` — `num q` stands
for a value that coerces to the number `q`, `cat s` for a categorical value on
which `float` raises and which is skipped.  The fairness service only ever
consumes a value through Python `str(v)`, embedded by `FValue.toStr`. -/
inductive FValue : Type
  | num (q : ℚ)
  | cat (s : String)
deriving Repr, DecidableEq

/-- Python `float(v)` on a feature value: `some` on success, `none` when the
coercion raises `ValueError`/`TypeError` (categorical value). -/
def FValue.toFloat? : FValue → Option ℚ
  | .num q => some q
  | .cat _ => none

/-- Python `str(v)` on a feature value, used as the fairness group key. -/
def FValue.toStr : FValue → String
  | .num q => toString q
  | .cat s => s

/-- Row of `model_registry` (app/models/model_registry.py).  Only the fields
the governance core reads or writes are embedded. -/
structure ModelRegistry where
  id : ℕ
  model_name : String
  status : String
  deployment_status : String
deriving Repr, DecidableEq

/-- Row of `governance_policies` (app/models/governance_policy.py). -/
structure GovernancePolicy where
  id : ℕ
  name : String
  max_allowed_mri : ℚ
  max_allowed_disparity : ℚ
  approval_required_above_mri : ℚ
  active : Bool
deriving Repr, DecidableEq

/-- Row of `prediction_logs` (app/models/prediction_log.py).  The JSON object
`input_features` is embedded as an association list with the object's key
order; JSON object keys are unique. -/
structure PredictionLog where
  model_id : ℕ
  input_features : List (String × FValue)
  prediction : ℚ
  timestamp : ℕ
deriving Repr, DecidableEq

/-- Row of `drift_metrics` (app/models/drift_metric.py). -/
structure DriftMetric where
  model_id : ℕ
  feature_name : String
  psi_value : ℚ
  ks_statistic : ℚ
  drift_flag : Bool
  timestamp : ℕ
deriving Repr, DecidableEq

/-- Row of `fairness_metrics` (app/models/fairness_metric.py). -/
structure FairnessMetric where
  model_id : ℕ
  protected_attribute : String
  group_name : String
  total_predictions : ℕ
  positive_predictions : ℕ
  approval_rate : ℚ
  disparity_score : ℚ
  fairness_flag : Bool
  timestamp : ℕ
deriving Repr, DecidableEq

/-- Row of `risk_history` (app/models/risk_history.py). -/
structure RiskHistory where
  model_id : ℕ
  risk_score : ℚ
  drift_component : ℚ
  fairness_component : ℚ
  timestamp : ℕ
deriving Repr, DecidableEq

/-- Row of `audit_logs` written by `audit_service.log_governance_action`.  The
free-form `details` JSON payload is not inspected by any verified property and
is not embedded. -/
structure AuditLog where
  user_id : ℕ
  model_id : ℕ
  action : String
  action_status : String
  risk_score : Option ℚ
  disparity_score : Option ℚ
  governance_status : Option String
  override_used : Option String
  deployment_status : Option String
  timestamp : ℕ
deriving Repr, DecidableEq

/-- The database state seen by one synchronous unit of work: every table the
governance core touches, each embedded as the list of its rows in insertion
order. -/
structure DB where
  models : List ModelRegistry
  policies : List GovernancePolicy
  prediction_logs : List PredictionLog
  drift_metrics : List DriftMetric
  fairness_metrics : List FairnessMetric
  risk_history : List RiskHistory
  audit_logs : List AuditLog
deriving Repr, DecidableEq

/-- `db.query(ModelRegistry).filter(ModelRegistry.id == model_id).first()`. -/
def findModel (db : DB) (model_id : ℕ) : Option ModelRegistry :=
  db.models.find? (fun m => m.id == model_id)

/-- `db.query(GovernancePolicy).filter(GovernancePolicy.active == True).first()`. -/
def activePolicy (db : DB) : Option GovernancePolicy :=
  db.policies.find? (fun p => p.active)

/-- Rows of `prediction_logs` for one model, in insertion order. -/
def logsFor (db : DB) (model_id : ℕ) : List PredictionLog :=
  db.prediction_logs.filter (fun l => l.model_id == model_id)

/-- Rows of `drift_metrics` for one model, in insertion order. -/
def driftRowsFor (db : DB) (model_id : ℕ) : List DriftMetric :=
  db.drift_metrics.filter (fun m => m.model_id == model_id)

/-- Rows of `fairness_metrics` for one model, in insertion order. -/
def fairnessRowsFor (db : DB) (model_id : ℕ) : List FairnessMetric :=
  db.fairness_metrics.filter (fun m => m.model_id == model_id)

/-- Rows of `risk_history` for one model, in insertion order. -/
def riskRowsFor (db : DB) (model_id : ℕ) : List RiskHistory :=
  db.risk_history.filter (fun r => r.model_id == model_id)

/-! ## Risk Composer — app/services/risk_service.py -/

/-- `risk_service.calculate_fairness_component` (lines 9-26): latest
disparity score × 100, capped at 100, rounded to 2 decimals; 0 when no
`FairnessMetric` row exists. -/
def calculate_fairness_component (db : DB) (model_id : ℕ) : ℚ :=
  match (sortDesc FairnessMetric.timestamp (fairnessRowsFor db model_id)).head? with
  | none => 0
  | some latest_fairness => round2 (min 100 (latest_fairness.disparity_score * 100))

/-- `risk_service.calculate_drift_component` (lines 61-87): over the 50 most
recent `DriftMetric` rows, `(avg_psi*60 + avg_ks*40) / 1.6` capped at 100 and
rounded to 2 decimals; 0 when no row exists. -/
def calculate_drift_component (db : DB) (model_id : ℕ) : ℚ :=
  let recent_drift_metrics :=
    (sortDesc DriftMetric.timestamp (driftRowsFor db model_id)).take 50
  if recent_drift_metrics.isEmpty then 0
  else
    let psi_values := recent_drift_metrics.map DriftMetric.psi_value
    let ks_values := recent_drift_metrics.map DriftMetric.ks_statistic
    let avg_psi := psi_values.sum / (psi_values.length : ℚ)
    let avg_ks := ks_values.sum / (ks_values.length : ℚ)
    let drift_component := avg_psi * 60 + avg_ks * 40
    round2 (min 100 (drift_component / 1.6))

/-- `risk_service.calculate_mri_score` (lines 29-58): the composite MRI,
`drift_component*0.6 + fairness_component*0.4` clamped to [0, 100] and
rounded to 2 decimals. -/
def calculate_mri_score (db : DB) (model_id : ℕ) : ℚ :=
  let drift_component := calculate_drift_component db model_id
  let fairness_component := calculate_fairness_component db model_id
  let risk_score := drift_component * 0.6 + fairness_component * 0.4
  round2 (min 100 (max 0 risk_score))

/-- `risk_service.create_risk_history_entry` (lines 90-113): computes the MRI
and both components and appends one `RiskHistory` row.  Returns the created
row together with the successor database state. -/
def create_risk_history_entry (db : DB) (model_id now : ℕ) : RiskHistory × DB :=
  let risk_entry : RiskHistory :=
    { model_id := model_id
      risk_score := calculate_mri_score db model_id
      drift_component := calculate_drift_component db model_id
      fairness_component := calculate_fairness_component db model_id
      timestamp := now }
  (risk_entry, { db with risk_history := db.risk_history ++ [risk_entry] })

/-! ## Governance Evaluator — app/services/governance_service.py -/

/-- The dict returned by `evaluate_model_governance`.  In the Python source
the "Model not found" and "No active policy" branches return a dict without
the `risk_score`/`disparity_score` keys; every caller reads those keys with
`.get(..., 0.0)`, which the `0` fields of those branches encode. -/
structure GovResult where
  status : String
  reason : String
  risk_score : ℚ
  disparity_score : ℚ
deriving Repr, DecidableEq

/-- Python `model.status or "draft"`: the stored status, with the falsy
values (`None` is excluded by the NOT NULL column, the empty string remains)
replaced by `"draft"`. -/
def orDraft (s : String) : String := if s = "" then "draft" else s

/-- The if/elif rule chain of `evaluate_model_governance` (lines 53-64),
factored out verbatim so the simulation mode can be compared against it.
Returns the `(new_status, reason)` pair. -/
def governanceRules (risk_score disparity_score : ℚ) (policy : GovernancePolicy) :
    String × String :=
  if risk_score > policy.max_allowed_mri then
    ("blocked", "Risk score " ++ toString risk_score ++ " exceeds max allowed " ++
      toString policy.max_allowed_mri)
  else if disparity_score > policy.max_allowed_disparity then
    ("at_risk", "Disparity " ++ toString disparity_score ++ " exceeds max allowed " ++
      toString policy.max_allowed_disparity)
  else if risk_score > policy.approval_required_above_mri then
    ("at_risk", "Risk score " ++ toString risk_score ++ " requires approval (threshold " ++
      toString policy.approval_required_above_mri ++ ")")
  else
    ("approved", "All governance checks passed")

/-- Latest `RiskHistory.risk_score` for the model, 0 when no row exists
(lines 39-43). -/
def latest_risk_score (db : DB) (model_id : ℕ) : ℚ :=
  match (sortDesc RiskHistory.timestamp (riskRowsFor db model_id)).head? with
  | none => 0
  | some latest_risk => latest_risk.risk_score

/-- Latest `FairnessMetric.disparity_score` for the model, 0 when no row
exists (lines 46-50). -/
def latest_disparity_score (db : DB) (model_id : ℕ) : ℚ :=
  match (sortDesc FairnessMetric.timestamp (fairnessRowsFor db model_id)).head? with
  | none => 0
  | some latest_fairness => latest_fairness.disparity_score

/-- `model.status = new_status; db.commit()` (lines 67-68). -/
def setModelStatus (db : DB) (model_id : ℕ) (new_status : String) : DB :=
  { db with models := db.models.map (fun m =>
      if m.id == model_id then { m with status := new_status } else m) }

/-- `governance_service.evaluate_model_governance` (lines 13-75).  Returns the
result dict together with the successor database state (the evaluation writes
the computed status back onto the model — except in the model-missing and
policy-missing branches, which leave the database untouched). -/
def evaluate_model_governance (db : DB) (model_id : ℕ) : GovResult × DB :=
  match findModel db model_id with
  | none =>
    ({ status := "draft", reason := "Model not found",
       risk_score := 0, disparity_score := 0 }, db)
  | some model =>
    match activePolicy db with
    | none =>
      ({ status := orDraft model.status, reason := "No active policy",
         risk_score := 0, disparity_score := 0 }, db)
    | some policy =>
      let risk_score := latest_risk_score db model_id
      let disparity_score := latest_disparity_score db model_id
      let sr := governanceRules risk_score disparity_score policy
      ({ status := sr.1, reason := sr.2,
         risk_score := risk_score, disparity_score := disparity_score },
       setModelStatus db model_id sr.1)

/-! ## Audit Recorder — app/services/audit_service.py -/

/-- `audit_service.log_governance_action` (lines 22-86): appends one
`AuditLog` row and commits; on a persistence failure it rolls back and
re-raises (every caller in the deployment gate catches the exception).  The
`audit_fails` flag selects which of the two behaviours this call exhibits, so
the audit-failure contract can be verified for both. -/
def log_governance_action (db : DB) (audit_fails : Bool) (entry : AuditLog) : DB :=
  if audit_fails then db else { db with audit_logs := db.audit_logs ++ [entry] }

/-! ## Deployment Gate — app/api/governance.py `deploy_model` -/

/-- Outcome of the deployment endpoint: HTTP 404, HTTP 403 with its detail
string, or the success payload's `override_used` flag. -/
inductive DeployDecision : Type
  | notFound
  | forbidden (detail : String)
  | allowed (override_used : Bool)
deriving Repr, DecidableEq

/-- Result of one `deploy_model` request: the decision, the number of Audit
Recorder calls the request issued, and the successor database state. -/
structure DeployOutcome where
  decision : DeployDecision
  audit_attempts : ℕ
  db : DB
deriving Repr, DecidableEq

/-- `model.status = "deployed"; model.deployment_status = "deployed"`
(governance.py lines 170-172). -/
def setModelDeployed (db : DB) (model_id : ℕ) : DB :=
  { db with models := db.models.map (fun m =>
      if m.id == model_id then
        { m with status := "deployed", deployment_status := "deployed" }
      else m) }

/-- `governance.deploy_model` (governance.py lines 62-205): re-runs the
governance evaluation, then branches on the fresh status.  Each of the three
decision branches issues exactly one Audit Recorder call, wrapped in
try/except so an audit failure is logged and swallowed. -/
def deploy_model (db : DB) (model_id : ℕ) (override : Bool) (user_id now : ℕ)
    (audit_fails : Bool) : DeployOutcome :=
  match findModel db model_id with
  | none => { decision := .notFound, audit_attempts := 0, db := db }
  | some _ =>
    let gr := evaluate_model_governance db model_id
    let governance_result := gr.1
    let db1 := gr.2
    let current_status := governance_result.status
    let risk_score := governance_result.risk_score
    let disparity_score := governance_result.disparity_score
    if current_status == "blocked" then
      let db2 := log_governance_action db1 audit_fails
        { user_id := user_id, model_id := model_id, action := "deployment",
          action_status := "blocked", risk_score := some risk_score,
          disparity_score := some disparity_score,
          governance_status := some current_status,
          override_used := some "no", deployment_status := some "blocked",
          timestamp := now }
      { decision := .forbidden ("Deployment blocked: " ++ governance_result.reason ++
          " (Override not permitted for hard blocks)"),
        audit_attempts := 1, db := db2 }
    else if current_status == "at_risk" && !override then
      let db2 := log_governance_action db1 audit_fails
        { user_id := user_id, model_id := model_id, action := "deployment",
          action_status := "rejected", risk_score := some risk_score,
          disparity_score := some disparity_score,
          governance_status := some current_status,
          override_used := some "no", deployment_status := some "blocked",
          timestamp := now }
      { decision := .forbidden ("Model at risk. " ++ governance_result.reason ++
          " Add ?override=true to override."),
        audit_attempts := 1, db := db2 }
    else
      let override_status := if override && current_status == "at_risk" then "yes" else "no"
      let db2 := setModelDeployed db1 model_id
      let db3 := log_governance_action db2 audit_fails
        { user_id := user_id, model_id := model_id, action := "deployment",
          action_status := "success", risk_score := some risk_score,
          disparity_score := some disparity_score,
          governance_status := some current_status,
          override_used := some override_status,
          deployment_status := some "deployed",
          timestamp := now }
      { decision := .allowed (override_status == "yes"),
        audit_attempts := 1, db := db3 }

/-! ## Simulation mode — app/api/simulation.py -/

/-- The fields of the simulation response dict that the verified properties
inspect (`details` is presentation-only and not embedded). -/
structure SimResult where
  would_pass : Bool
  reason : String
  compliance_grade : String
deriving Repr, DecidableEq

/-- `simulation.simulate_governance_check` (simulation.py lines 29-106):
pure in-memory evaluation against a policy.  It takes no database state at
all — the endpoint only reads the active policy and returns this function's
value — so it can touch no stored state by construction. -/
def simulate_governance_check (risk_score fairness_score : ℚ) (override : Bool)
    (policy : GovernancePolicy) : SimResult :=
  let disparity_score := 100 - fairness_score
  if risk_score > policy.max_allowed_mri then
    { would_pass := false,
      reason := "Risk score " ++ toString risk_score ++ " exceeds hard limit " ++
        toString policy.max_allowed_mri,
      compliance_grade := "F" }
  else if disparity_score > policy.max_allowed_disparity then
    { would_pass := override,
      reason := "Disparity " ++ toString disparity_score ++ " exceeds limit " ++
        toString policy.max_allowed_disparity ++ ". Override: " ++ toString override,
      compliance_grade := if override then "D" else "F" }
  else if risk_score > policy.approval_required_above_mri then
    { would_pass := override,
      reason := "Risk " ++ toString risk_score ++ " requires approval (threshold " ++
        toString policy.approval_required_above_mri ++ "). Override: " ++ toString override,
      compliance_grade := if override then "C" else "B" }
  else
    { would_pass := true, reason := "All governance checks passed",
      compliance_grade := "A" }

/-! ## Fairness Calculator — app/services/fairness_service.py -/

/-- Python `features[name]` / `name in features` on the JSON object. -/
def lookupFeature (features : List (String × FValue)) (name : String) : Option FValue :=
  (features.find? (fun kv => kv.1 == name)).map Prod.snd

/-- The group key of one log: `str(log.input_features[attr])` when the
attribute is present, `none` when the log is excluded from grouping. -/
def logGroup (protected_attribute : String) (log : PredictionLog) : Option String :=
  (lookupFeature log.input_features protected_attribute).map FValue.toStr

/-- Per-group running tally (`group_stats[g]["total"/"positive"]`). -/
structure GroupStat where
  total : ℕ
  positive : ℕ
deriving Repr, DecidableEq

/-- One iteration of the grouping loop: bump the tally of `group_value`,
creating it at the end on first sight (Python dict insertion order). -/
def bumpGroup (group_value : String) (is_positive : Bool) :
    List (String × GroupStat) → List (String × GroupStat)
  | [] => [(group_value, { total := 1, positive := if is_positive then 1 else 0 })]
  | (k, st) :: rest =>
    if k == group_value then
      (k, { total := st.total + 1,
            positive := st.positive + if is_positive then 1 else 0 }) :: rest
    else (k, st) :: bumpGroup group_value is_positive rest

/-- One iteration of the grouping loop of `calculate_fairness_for_model`
(lines 70-80): logs missing the attribute are skipped; a prediction strictly
above 0.5 counts as positive. -/
def groupStep (protected_attribute : String)
    (acc : List (String × GroupStat)) (log : PredictionLog) :
    List (String × GroupStat) :=
  match logGroup protected_attribute log with
  | none => acc
  | some group_value => bumpGroup group_value (decide (log.prediction > 0.5)) acc

/-- The grouping loop of `calculate_fairness_for_model` (lines 68-80). -/
def groupStats (protected_attribute : String) (logs : List PredictionLog) :
    List (String × GroupStat) :=
  logs.foldl (groupStep protected_attribute) []

/-- Lookup of one group's running tally in the association list (proof
vocabulary for reasoning about `bumpGroup`). -/
def findStat (stats : List (String × GroupStat)) (g : String) : Option GroupStat :=
  (stats.find? (fun e => e.1 == g)).map Prod.snd

/-- The tally update `bumpGroup` applies to the touched group. -/
def incStat (o : Option GroupStat) (b : Bool) : GroupStat :=
  match o with
  | none => { total := 1, positive := if b then 1 else 0 }
  | some st => { total := st.total + 1, positive := st.positive + if b then 1 else 0 }

/-- Total of an optional tally (0 when absent). -/
def optTotal : Option GroupStat → ℕ
  | none => 0
  | some st => st.total

/-- Positive count of an optional tally (0 when absent). -/
def optPositive : Option GroupStat → ℕ
  | none => 0
  | some st => st.positive

/-- `approval_rate = positive/total` with the explicit `total > 0` guard
(lines 91-96). -/
def approvalRate (st : GroupStat) : ℚ :=
  if st.total > 0 then (st.positive : ℚ) / (st.total : ℚ) else 0

/-- Python `max` over a nonempty list (the `[]` value is never reached by the
guarded call sites). -/
def listMax : List ℚ → ℚ
  | [] => 0
  | x :: xs => xs.foldl max x

/-- Python `min` over a nonempty list (the `[]` value is never reached by the
guarded call sites). -/
def listMin : List ℚ → ℚ
  | [] => 0
  | x :: xs => xs.foldl min x

/-- `fairness_service._get_fairness_threshold` (lines 13-29): the active
policy's disparity ceiling, falling back to 0.25 when no policy is active. -/
def get_fairness_threshold (db : DB) : ℚ :=
  match activePolicy db with
  | some policy => policy.max_allowed_disparity
  | none => 0.25

/-- The dict returned by `calculate_fairness_for_model`. -/
structure FairnessResult where
  disparity_score : ℚ
  fairness_flag : Bool
  groups : List FairnessMetric
deriving Repr, DecidableEq

/-- `fairness_service.calculate_fairness_for_model` (lines 32-142): groups
the model's full log history by the protected attribute, computes per-group
approval rates, stamps the shared disparity (max − min rate) and flag on one
`FairnessMetric` row per group, and appends those rows.  The returned dict
carries the disparity rounded to 4 decimals; the persisted rows carry it
unrounded. -/
def calculate_fairness_for_model (db : DB) (model_id : ℕ)
    (protected_attribute : String) (now : ℕ) : FairnessResult × DB :=
  let prediction_logs := logsFor db model_id
  if prediction_logs.isEmpty then
    ({ disparity_score := 0, fairness_flag := false, groups := [] }, db)
  else
    let group_stats := groupStats protected_attribute prediction_logs
    if group_stats.isEmpty then
      ({ disparity_score := 0, fairness_flag := false, groups := [] }, db)
    else
      let approval_rates := group_stats.map (fun e => approvalRate e.2)
      let disparity_score :=
        if approval_rates.isEmpty then 0
        else listMax approval_rates - listMin approval_rates
      let fairness_threshold := get_fairness_threshold db
      let fairness_flag := decide (disparity_score > fairness_threshold)
      let fairness_metrics := group_stats.map (fun e =>
        ({ model_id := model_id, protected_attribute := protected_attribute,
           group_name := e.1, total_predictions := e.2.total,
           positive_predictions := e.2.positive,
           approval_rate := approvalRate e.2,
           disparity_score := disparity_score,
           fairness_flag := fairness_flag, timestamp := now } : FairnessMetric))
      ({ disparity_score := round4 disparity_score, fairness_flag := fairness_flag,
         groups := fairness_metrics },
       { db with fairness_metrics := db.fairness_metrics ++ fairness_metrics })

/-! ## Drift Calculator — app/services/drift_service.py -/

/-- The configuration consumed by the drift service
(app/core/config.py `Settings`), at its default values. -/
structure Settings where
  DRIFT_WINDOW_SIZE : ℕ
  PSI_THRESHOLD : ℚ
  KS_THRESHOLD : ℚ

/-- The default configuration: window 100, PSI alert 0.25, KS alert 0.2. -/
def settings : Settings :=
  { DRIFT_WINDOW_SIZE := 100, PSI_THRESHOLD := 0.25, KS_THRESHOLD := 0.2 }

/-- One bin count of `np.histogram` over `bins + 1` equally spaced
breakpoints spanning `[mn, mx]`: bin `i` is half-open except the last bin,
which is closed. -/
def histCount (sample : List ℚ) (mn mx : ℚ) (bins i : ℕ) : ℕ :=
  let lo := mn + (i : ℚ) * (mx - mn) / (bins : ℚ)
  let hi := mn + ((i : ℚ) + 1) * (mx - mn) / (bins : ℚ)
  if i + 1 == bins then sample.countP (fun x => decide (lo ≤ x ∧ x ≤ hi))
  else sample.countP (fun x => decide (lo ≤ x ∧ x < hi))

/-- `drift_service.calculate_psi` (lines 12-43).  `np.log` is embedded as the
parameter `ln`: the verified properties of PSI hold for every log function,
because each summand `(actual% − expected%) · ln(actual%/expected%)` carries
the difference as a factor.  `bins` is 10 at the only call site. -/
def calculate_psi (ln : ℚ → ℚ) (expected actual : List ℚ) (bins : ℕ) : ℚ :=
  if expected.length = 0 ∨ actual.length = 0 then 0
  else
    let min_val := min (listMin expected) (listMin actual)
    let max_val := max (listMax expected) (listMax actual)
    let expected_total :=
      ((List.range bins).map (histCount expected min_val max_val bins)).sum
    let actual_total :=
      ((List.range bins).map (histCount actual min_val max_val bins)).sum
    let eps : ℚ := 1/1000000
    let expected_percent := fun i : ℕ =>
      ((histCount expected min_val max_val bins i : ℚ) + eps) /
        ((expected_total : ℚ) + (bins : ℚ) * eps)
    let actual_percent := fun i : ℕ =>
      ((histCount actual min_val max_val bins i : ℚ) + eps) /
        ((actual_total : ℚ) + (bins : ℚ) * eps)
    ((List.range bins).map (fun i =>
      (actual_percent i - expected_percent i) *
        ln (actual_percent i / expected_percent i))).sum

/-- Empirical CDF of a sample at `x`. -/
def ecdf (sample : List ℚ) (x : ℚ) : ℚ :=
  ((sample.countP (fun v => decide (v ≤ x)) : ℕ) : ℚ) / ((sample.length : ℕ) : ℚ)

/-- `drift_service.calculate_ks_statistic` (lines 46-58): the two-sample
Kolmogorov–Smirnov statistic of `scipy.stats.ks_2samp` — the maximum absolute
gap between the two empirical CDFs, attained at a point of the pooled
sample. -/
def calculate_ks_statistic (expected actual : List ℚ) : ℚ :=
  if expected.length = 0 ∨ actual.length = 0 then 0
  else listMax ((expected ++ actual).map (fun x => |ecdf expected x - ecdf actual x|))

/-- The per-log extraction step shared by `get_baseline_data` (lines 79-91)
and `get_recent_data` (lines 109-119): a feature present in the log's
`input_features` is read there (skipped when `float` raises); only a feature
absent from the map falls through to the `elif feature_name == "prediction"`
branch that reads the stored prediction score. -/
def extractFeature (feature_name : String) (log : PredictionLog) : Option ℚ :=
  match lookupFeature log.input_features feature_name with
  | some v => v.toFloat?
  | none => if feature_name == "prediction" then some log.prediction else none

/-- `drift_service.get_baseline_data` (lines 61-92): the earliest 100 logs'
coercible values of the feature; empty when the model does not exist. -/
def get_baseline_data (db : DB) (model_id : ℕ) (feature_name : String) : List ℚ :=
  match findModel db model_id with
  | none => []
  | some _ =>
    let baseline_logs := (sortAsc PredictionLog.timestamp (logsFor db model_id)).take 100
    baseline_logs.filterMap (extractFeature feature_name)

/-- `drift_service.get_recent_data` (lines 95-121): the most recent
`DRIFT_WINDOW_SIZE` logs' coercible values of the feature. -/
def get_recent_data (db : DB) (model_id : ℕ) (feature_name : String) : List ℚ :=
  let recent_logs :=
    (sortDesc PredictionLog.timestamp (logsFor db model_id)).take settings.DRIFT_WINDOW_SIZE
  recent_logs.filterMap (extractFeature feature_name)

/-- The feature list of `calculate_drift_for_model` (lines 134-146): the keys
of the first log's `input_features` (empty when there is no log or the map is
empty/falsy), with `"prediction"` appended unconditionally. -/
def features_to_monitor (db : DB) (model_id : ℕ) : List String :=
  (match (logsFor db model_id).head? with
   | some sample_log =>
     if sample_log.input_features.isEmpty then []
     else sample_log.input_features.map Prod.fst
   | none => []) ++ ["prediction"]

/-- One iteration of the feature loop of `calculate_drift_for_model`
(lines 150-175): `none` when either sample has fewer than 10 values
(insufficient data — the feature is skipped), otherwise the created
`DriftMetric` row. -/
def mkDriftMetric (ln : ℚ → ℚ) (db : DB) (model_id now : ℕ)
    (feature_name : String) : Option DriftMetric :=
  let baseline := get_baseline_data db model_id feature_name
  let recent := get_recent_data db model_id feature_name
  if baseline.length < 10 ∨ recent.length < 10 then none
  else
    let psi_value := calculate_psi ln baseline recent 10
    let ks_statistic := calculate_ks_statistic baseline recent
    some { model_id := model_id, feature_name := feature_name,
           psi_value := psi_value, ks_statistic := ks_statistic,
           drift_flag := decide (psi_value ≥ settings.PSI_THRESHOLD) ||
                         decide (ks_statistic ≥ settings.KS_THRESHOLD),
           timestamp := now }

/-- `drift_service.calculate_drift_for_model` (lines 124-179): an empty
result (and an untouched database) when the model does not exist; otherwise
one `DriftMetric` row per monitored feature with sufficient data, appended to
the table.  The loop's per-iteration reads touch only `prediction_logs`,
which the loop never writes, so every iteration reads the entry state. -/
def calculate_drift_for_model (ln : ℚ → ℚ) (db : DB) (model_id now : ℕ) :
    List DriftMetric × DB :=
  match findModel db model_id with
  | none => ([], db)
  | some _ =>
    let drift_metrics :=
      (features_to_monitor db model_id).filterMap (mkDriftMetric ln db model_id now)
    (drift_metrics, { db with drift_metrics := db.drift_metrics ++ drift_metrics })

/-! ## Concrete fixtures used to instantiate the verified properties -/

/-- A registered model in its initial state. -/
def modelDemo : ModelRegistry :=
  { id := 1, model_name := "credit-model", status := "draft",
    deployment_status := "draft" }

/-- The active policy of the spec's governance test vectors:
`{max_mri = 80, max_disp = 0.15, approval_above = 60}`. -/
def policyDemo : GovernancePolicy :=
  { id := 1, name := "Default Policy", max_allowed_mri := 80,
    max_allowed_disparity := 0.15, approval_required_above_mri := 60,
    active := true }

/-- A database with every table empty. -/
def emptyDB : DB :=
  { models := [], policies := [], prediction_logs := [], drift_metrics := [],
    fairness_metrics := [], risk_history := [], audit_logs := [] }

/-- One approved model and no governance policy at all. -/
def dbNoPolicy : DB :=
  { emptyDB with models := [{ modelDemo with status := "approved" }] }

/-- A stored fairness snapshot with disparity 0.05. -/
def fairnessRowDemo : FairnessMetric :=
  { model_id := 1, protected_attribute := "gender", group_name := "all",
    total_predictions := 20, positive_predictions := 1, approval_rate := 0.05,
    disparity_score := 0.05, fairness_flag := false, timestamp := 3 }

/-- A stored MRI snapshot with risk score 95. -/
def riskRowDemo : RiskHistory :=
  { model_id := 1, risk_score := 95, drift_component := 95,
    fairness_component := 95, timestamp := 3 }

/-- The spec's hard-block vector: latest risk 95, latest disparity 0.05,
active policy `policyDemo`. -/
def dbBlocked : DB :=
  { emptyDB with
    models := [modelDemo], policies := [policyDemo],
    fairness_metrics := [fairnessRowDemo],
    risk_history := [riskRowDemo] }

/-- A prediction log carrying one categorical protected attribute. -/
def mkFairLog (g : String) (pred : ℚ) (t : ℕ) : PredictionLog :=
  { model_id := 1, input_features := [("gender", FValue.cat g)],
    prediction := pred, timestamp := t }

/-- The spec's two-group fairness vector: group "A" approves 7 of 10 (rate
0.70), group "B" approves 9 of 20 (rate 0.45); disparity 0.25. -/
def fairLogs : List PredictionLog :=
  List.replicate 7 (mkFairLog "A" 1 0) ++ List.replicate 3 (mkFairLog "A" 0 0) ++
    List.replicate 9 (mkFairLog "B" 1 0) ++ List.replicate 11 (mkFairLog "B" 0 0)

/-- A registered model with the two-group fairness history and the demo
policy active. -/
def dbFair : DB :=
  { emptyDB with
    models := [modelDemo], policies := [policyDemo],
    prediction_logs := fairLogs }

/-- The `FairnessMetric` row the two-group vector produces for group "A". -/
def fmA : FairnessMetric :=
  { model_id := 1, protected_attribute := "gender", group_name := "A",
    total_predictions := 10, positive_predictions := 7, approval_rate := 7/10,
    disparity_score := 1/4, fairness_flag := true, timestamp := 5 }

/-- A prediction log whose `input_features` JSON object contains an input
feature literally named `"prediction"`. -/
def logPredFeature (t : ℕ) : PredictionLog :=
  { model_id := 1, input_features := [("prediction", FValue.num 0)],
    prediction := 1, timestamp := t }

/-- A registered model with twelve logs that all carry an input feature
named `"prediction"`. -/
def dbPredFeature : DB :=
  { emptyDB with
    models := [modelDemo],
    prediction_logs := (List.range 12).map logPredFeature }

/-- C3: every `RiskHistory` row produced by the Risk Composer satisfies
`risk_score == round(clamp(drift_component*0.6 + fairness_component*0.4, 0,
100), 2)` at creation time, for every database state — hence for all values
of the drift and fairness components, including the boundary values 0 and
100. -/
theorem risk_history_mri_invariant (db : DB) (model_id now : ℕ) :
    ((create_risk_history_entry db model_id now).1).risk_score =
      round2 (min 100 (max 0
        (((create_risk_history_entry db model_id now).1).drift_component * 0.6 +
         ((create_risk_history_entry db model_id now).1).fairness_component * 0.4))) := rfl

/-- The Risk Composer persists exactly the row it returns: the successor
state's `risk_history` is the prior table with the one new row appended. -/
theorem create_risk_history_appends (db : DB) (model_id now : ℕ) :
    ((create_risk_history_entry db model_id now).2).risk_history =
      db.risk_history ++ [(create_risk_history_entry db model_id now).1] := rfl

/-! ## Helper lemmas about the state-threading plumbing -/

lemma log_governance_action_models (db : DB) (b : Bool) (e : AuditLog) :
    (log_governance_action db b e).models = db.models := by
  unfold log_governance_action
  split <;> rfl

lemma findModel_log_governance_action (db : DB) (b : Bool) (e : AuditLog)
    (mid : ℕ) :
    findModel (log_governance_action db b e) mid = findModel db mid := by
  unfold findModel
  rw [log_governance_action_models]

lemma find?_id_map_setStatus (ms : List ModelRegistry) (mid : ℕ) (s : String) :
    (ms.map (fun m => if m.id == mid then { m with status := s } else m)).find?
        (fun m => m.id == mid) =
      (ms.find? (fun m => m.id == mid)).map (fun m => { m with status := s }) := by
  induction ms with
  | nil => rfl
  | cons x xs ih =>
    simp only [List.map_cons]
    by_cases hx : (x.id == mid) = true
    · rw [if_pos hx]
      simp only [List.find?, hx]
      rfl
    · rw [if_neg hx]
      rw [Bool.not_eq_true] at hx
      simp only [List.find?, hx]
      exact ih

lemma findModel_setModelStatus (db : DB) (mid : ℕ) (s : String) :
    findModel (setModelStatus db mid s) mid =
      (findModel db mid).map (fun m => { m with status := s }) := by
  unfold findModel setModelStatus
  exact find?_id_map_setStatus db.models mid s

/-- Whenever the governance evaluation reports `blocked`, the model's stored
status after the evaluation is `blocked` (either freshly written by the
policy branch or already stored in the fail-open branch). -/
lemma evaluate_status_written (db : DB) (model_id : ℕ)
    (hb : ((evaluate_model_governance db model_id).1).status = "blocked") :
    (findModel ((evaluate_model_governance db model_id).2) model_id).map
      ModelRegistry.status = some "blocked" := by
  rcases hfm : findModel db model_id with _ | m
  · unfold evaluate_model_governance at hb
    rw [hfm] at hb
    simp at hb
  · rcases hp : activePolicy db with _ | p
    · unfold evaluate_model_governance at hb ⊢
      rw [hfm, hp] at hb ⊢
      simp only at hb ⊢
      rw [hfm]
      unfold orDraft at hb
      by_cases he : m.status = ""
      · rw [if_pos he] at hb; simp at hb
      · rw [if_neg he] at hb; simp [hb]
    · unfold evaluate_model_governance at hb ⊢
      rw [hfm, hp] at hb ⊢
      simp only at hb ⊢
      rw [findModel_setModelStatus, hfm]
      simp [hb]

/-! ## The verified claims -/

/-- C7: when no active governance policy exists, evaluation returns the
model's current stored status unchanged with the reason "No active policy",
raises no error, and leaves the database — in particular the
`ModelRegistry.status` field — unmodified.  (The stored status of a
registered model is one of the nonempty status words of the data model,
which the `m.status ≠ ""` hypothesis records.) -/
theorem no_active_policy_fails_open (db : DB) (model_id : ℕ)
    (m : ModelRegistry) (hm : findModel db model_id = some m)
    (hp : activePolicy db = none) (hs : m.status ≠ "") :
    ((evaluate_model_governance db model_id).1).status = m.status ∧
    ((evaluate_model_governance db model_id).1).reason = "No active policy" ∧
    (evaluate_model_governance db model_id).2 = db := by
  unfold evaluate_model_governance
  rw [hm, hp]
  simp [orDraft, hs]

/-- Witness for C7 at a concrete database: one approved model and no
policy. -/
theorem no_active_policy_fails_open_witness :
    ((evaluate_model_governance dbNoPolicy 1).1).status = "approved" ∧
    ((evaluate_model_governance dbNoPolicy 1).1).reason = "No active policy" ∧
    (evaluate_model_governance dbNoPolicy 1).2 = dbNoPolicy :=
  no_active_policy_fails_open dbNoPolicy 1
    { modelDemo with status := "approved" } rfl rfl (by decide)

/-- C2: with an active policy, governance evaluation applies the rules in
strict order.  The evaluation's status and reason are exactly those of the
`governanceRules` chain applied to the latest risk and disparity scores;
those scores default to 0 when no `RiskHistory`/`FairnessMetric` row exists;
and the chain itself satisfies: risk above `max_allowed_mri` is `blocked`
regardless of the disparity and of the soft-gate threshold, otherwise
disparity above `max_allowed_disparity` is `at_risk` citing fairness,
otherwise risk above `approval_required_above_mri` is `at_risk` citing the
soft gate, otherwise `approved`. -/
theorem governance_rule_order (db : DB) (model_id : ℕ) (m : ModelRegistry)
    (p : GovernancePolicy) (hm : findModel db model_id = some m)
    (hp : activePolicy db = some p) :
    ((evaluate_model_governance db model_id).1).status =
      (governanceRules (latest_risk_score db model_id)
        (latest_disparity_score db model_id) p).1 ∧
    ((evaluate_model_governance db model_id).1).reason =
      (governanceRules (latest_risk_score db model_id)
        (latest_disparity_score db model_id) p).2 ∧
    (riskRowsFor db model_id = [] → latest_risk_score db model_id = 0) ∧
    (fairnessRowsFor db model_id = [] → latest_disparity_score db model_id = 0) ∧
    (∀ risk disparity : ℚ, risk > p.max_allowed_mri →
      (governanceRules risk disparity p).1 = "blocked") ∧
    (∀ risk disparity : ℚ, ¬ risk > p.max_allowed_mri →
      disparity > p.max_allowed_disparity →
      (governanceRules risk disparity p).1 = "at_risk" ∧
      (governanceRules risk disparity p).2 =
        "Disparity " ++ toString disparity ++ " exceeds max allowed " ++
          toString p.max_allowed_disparity) ∧
    (∀ risk disparity : ℚ, ¬ risk > p.max_allowed_mri →
      ¬ disparity > p.max_allowed_disparity →
      risk > p.approval_required_above_mri →
      (governanceRules risk disparity p).1 = "at_risk" ∧
      (governanceRules risk disparity p).2 =
        "Risk score " ++ toString risk ++ " requires approval (threshold " ++
          toString p.approval_required_above_mri ++ ")") ∧
    (∀ risk disparity : ℚ, ¬ risk > p.max_allowed_mri →
      ¬ disparity > p.max_allowed_disparity →
      ¬ risk > p.approval_required_above_mri →
      (governanceRules risk disparity p).1 = "approved") := by
  refine ⟨?_, ?_, ?_, ?_, ?_, ?_, ?_, ?_⟩
  · unfold evaluate_model_governance; rw [hm, hp]; try rfl
  · unfold evaluate_model_governance; rw [hm, hp]; try rfl
  · intro h; simp [latest_risk_score, h, sortDesc]
  · intro h; simp [latest_disparity_score, h, sortDesc]
  · intro risk disparity h; simp [governanceRules, h]
  · intro risk disparity h1 h2; simp [governanceRules, h1, h2]
  · intro risk disparity h1 h2 h3; simp [governanceRules, h1, h2, h3]
  · intro risk disparity h1 h2 h3; simp [governanceRules, h1, h2, h3]

/-- Witness for C2 at the spec's hard-block vector: risk 95, disparity 0.05,
policy `{80, 0.15, 60}` evaluates to `blocked` — the hard block fires even
though 95 also exceeds the soft-gate threshold 60. -/
theorem governance_rule_order_witness :
    ((evaluate_model_governance dbBlocked 1).1).status = "blocked" := by
  have h := governance_rule_order dbBlocked 1 modelDemo policyDemo rfl rfl
  have hr : latest_risk_score dbBlocked 1 = 95 := by
    simp [latest_risk_score, riskRowsFor, dbBlocked, emptyDB, sortDesc, insertDesc,
      riskRowDemo]
  rw [h.1, hr]
  exact h.2.2.2.2.1 95 (latest_disparity_score dbBlocked 1)
    (by norm_num [policyDemo])

/-- Independent computation of the hard-block status on the fixture, used to
discharge the hypotheses of the deployment-gate properties. -/
lemma dbBlocked_eval_blocked :
    ((evaluate_model_governance dbBlocked 1).1).status = "blocked" := by
  norm_num [evaluate_model_governance, findModel, activePolicy, dbBlocked,
    emptyDB, modelDemo, policyDemo, latest_risk_score, latest_disparity_score,
    riskRowsFor, fairnessRowsFor, sortDesc, insertDesc, governanceRules,
    riskRowDemo, fairnessRowDemo]

/-- C1: whenever the governance evaluation performed at the start of a
deployment attempt yields `blocked`, the Deployment Gate answers HTTP 403
with the hard-block detail for every value of the override flag (and of the
audit-failure flag), and the model's stored status after the attempt is
`blocked` — never `deployed`. -/
theorem blocked_deployment_always_denied (db : DB) (model_id : ℕ)
    (override audit_fails : Bool) (user_id now : ℕ)
    (hb : ((evaluate_model_governance db model_id).1).status = "blocked") :
    (deploy_model db model_id override user_id now audit_fails).decision =
      DeployDecision.forbidden ("Deployment blocked: " ++
        ((evaluate_model_governance db model_id).1).reason ++
        " (Override not permitted for hard blocks)") ∧
    (findModel ((deploy_model db model_id override user_id now audit_fails).db)
        model_id).map ModelRegistry.status = some "blocked" ∧
    (findModel ((deploy_model db model_id override user_id now audit_fails).db)
        model_id).map ModelRegistry.status ≠ some "deployed" := by
  have hex : ∃ m, findModel db model_id = some m := by
    cases hfm : findModel db model_id with
    | none =>
      exfalso
      unfold evaluate_model_governance at hb
      rw [hfm] at hb
      simp at hb
    | some m => exact ⟨m, rfl⟩
  obtain ⟨m, hfm⟩ := hex
  have hmain :
      (deploy_model db model_id override user_id now audit_fails).decision =
        DeployDecision.forbidden ("Deployment blocked: " ++
          ((evaluate_model_governance db model_id).1).reason ++
          " (Override not permitted for hard blocks)") ∧
      (deploy_model db model_id override user_id now audit_fails).db =
        log_governance_action ((evaluate_model_governance db model_id).2)
          audit_fails
          { user_id := user_id, model_id := model_id, action := "deployment",
            action_status := "blocked",
            risk_score := some ((evaluate_model_governance db model_id).1).risk_score,
            disparity_score :=
              some ((evaluate_model_governance db model_id).1).disparity_score,
            governance_status :=
              some ((evaluate_model_governance db model_id).1).status,
            override_used := some "no", deployment_status := some "blocked",
            timestamp := now } := by
    unfold deploy_model
    rw [hfm]
    simp [hb]
  refine ⟨hmain.1, ?_, ?_⟩
  · rw [hmain.2, findModel_log_governance_action]
    exact evaluate_status_written db model_id hb
  · rw [hmain.2, findModel_log_governance_action,
      evaluate_status_written db model_id hb]
    simp

/-- Witness for C1: on the hard-block fixture, `override = true` is still
denied and the stored status stays `blocked`. -/
theorem blocked_deployment_always_denied_witness :
    (deploy_model dbBlocked 1 true 7 9 false).decision =
      DeployDecision.forbidden ("Deployment blocked: " ++
        ((evaluate_model_governance dbBlocked 1).1).reason ++
        " (Override not permitted for hard blocks)") ∧
    (findModel ((deploy_model dbBlocked 1 true 7 9 false).db) 1).map
      ModelRegistry.status = some "blocked" ∧
    (findModel ((deploy_model dbBlocked 1 true 7 9 false).db) 1).map
      ModelRegistry.status ≠ some "deployed" :=
  blocked_deployment_always_denied dbBlocked 1 true false 7 9
    dbBlocked_eval_blocked

/-- C6: once the model lookup succeeds, every decision branch of the
Deployment Gate issues exactly one Audit Recorder call before returning, and
a failing audit write changes neither the decision nor the model table —
verified by running the same request with the audit write failing and
succeeding. -/
theorem deployment_audit_exactly_once (db : DB) (model_id : ℕ)
    (override : Bool) (user_id now : ℕ) (m : ModelRegistry)
    (hm : findModel db model_id = some m) :
    (deploy_model db model_id override user_id now true).audit_attempts = 1 ∧
    (deploy_model db model_id override user_id now false).audit_attempts = 1 ∧
    (deploy_model db model_id override user_id now true).decision =
      (deploy_model db model_id override user_id now false).decision ∧
    ((deploy_model db model_id override user_id now true).db).models =
      ((deploy_model db model_id override user_id now false).db).models := by
  unfold deploy_model
  rw [hm]
  simp only []
  split_ifs <;>
    simp [log_governance_action_models]

/-- Witness for C6 on the hard-block fixture. -/
theorem deployment_audit_exactly_once_witness :
    (deploy_model dbBlocked 1 false 7 9 true).audit_attempts = 1 ∧
    (deploy_model dbBlocked 1 false 7 9 false).audit_attempts = 1 ∧
    (deploy_model dbBlocked 1 false 7 9 true).decision =
      (deploy_model dbBlocked 1 false 7 9 false).decision ∧
    ((deploy_model dbBlocked 1 false 7 9 true).db).models =
      ((deploy_model dbBlocked 1 false 7 9 false).db).models :=
  deployment_audit_exactly_once dbBlocked 1 false 7 9 modelDemo rfl

/-- C5 counterexample: in the simulation mode, risk 70 / fairness 100 / no
override against the policy `{80, 0.15, 60}` is an unoverridden (soft) gate
failure — `would_pass` is `false` — yet the compliance grade is `"B"`, not
the `"F"` the claim assigns to every unoverridden gate failure (and no
soft-gate *pass* without override exists that the claim's `"B"` could
describe, since the soft-gate branch passes only via override). -/
theorem simulation_grade_counterexample :
    (simulate_governance_check 70 100 false policyDemo).would_pass = false ∧
    (simulate_governance_check 70 100 false policyDemo).compliance_grade = "B" ∧
    "B" ≠ "F" := by
  refine ⟨?_, ?_, by decide⟩ <;>
    norm_num [simulate_governance_check, policyDemo]

/-- C5 (amended): the read-only simulation mode — a pure function of the
risk/fairness pair, the override flag and the active policy, touching no
stored state by construction — reproduces the production rule order and
precedence of `governanceRules` under the mapping `disparity = 100 −
fairness_score`: it passes exactly when the production status is `approved`,
or is `at_risk` and the override flag is set.  The grades are: A full pass;
C soft gate passed via override; B soft gate failed without override (a
denial, despite the passing-looking grade); D fairness gate passed via
override; F a hard block or an unoverridden fairness-gate failure. -/
theorem simulation_matches_governance_rules (risk_score fairness_score : ℚ)
    (override : Bool) (policy : GovernancePolicy) :
    ((simulate_governance_check risk_score fairness_score override policy).would_pass =
        true ↔
      ((governanceRules risk_score (100 - fairness_score) policy).1 = "approved" ∨
       ((governanceRules risk_score (100 - fairness_score) policy).1 = "at_risk" ∧
        override = true))) ∧
    (risk_score > policy.max_allowed_mri →
      (simulate_governance_check risk_score fairness_score override policy).compliance_grade =
          "F" ∧
      (simulate_governance_check risk_score fairness_score override policy).would_pass =
          false) ∧
    (¬ risk_score > policy.max_allowed_mri →
      100 - fairness_score > policy.max_allowed_disparity →
      (simulate_governance_check risk_score fairness_score override policy).compliance_grade =
          (if override then "D" else "F") ∧
      (simulate_governance_check risk_score fairness_score override policy).would_pass =
          override) ∧
    (¬ risk_score > policy.max_allowed_mri →
      ¬ 100 - fairness_score > policy.max_allowed_disparity →
      risk_score > policy.approval_required_above_mri →
      (simulate_governance_check risk_score fairness_score override policy).compliance_grade =
          (if override then "C" else "B") ∧
      (simulate_governance_check risk_score fairness_score override policy).would_pass =
          override) ∧
    (¬ risk_score > policy.max_allowed_mri →
      ¬ 100 - fairness_score > policy.max_allowed_disparity →
      ¬ risk_score > policy.approval_required_above_mri →
      (simulate_governance_check risk_score fairness_score override policy).compliance_grade =
          "A" ∧
      (simulate_governance_check risk_score fairness_score override policy).would_pass =
          true) := by
  by_cases h1 : risk_score > policy.max_allowed_mri
  · simp [simulate_governance_check, governanceRules, h1]
  · by_cases h2 : 100 - fairness_score > policy.max_allowed_disparity
    · cases override <;>
        simp [simulate_governance_check, governanceRules, h1, h2]
    · by_cases h3 : risk_score > policy.approval_required_above_mri
      · cases override <;>
          simp [simulate_governance_check, governanceRules, h1, h2, h3]
      · simp [simulate_governance_check, governanceRules, h1, h2, h3]

/-- Witness for the amended C5: risk 70 / fairness 100 / override true is a
soft gate passed via override — grade "C" and a pass. -/
theorem simulation_matches_governance_rules_witness :
    (simulate_governance_check 70 100 true policyDemo).compliance_grade = "C" ∧
    (simulate_governance_check 70 100 true policyDemo).would_pass = true := by
  have h := simulation_matches_governance_rules 70 100 true policyDemo
  have hc := h.2.2.2.1 (by norm_num [policyDemo]) (by norm_num [policyDemo])
    (by norm_num [policyDemo])
  simpa using hc

/-- Every element of a rational list being zero forces the running
`foldl max 0` to zero. -/
lemma foldl_max_zeros (l : List ℚ) (h : ∀ x ∈ l, x = 0) : l.foldl max 0 = 0 := by
  induction l with
  | nil => rfl
  | cons a l ih =>
    have ha : a = 0 := h a (by simp)
    have h' : ∀ x ∈ l, x = 0 := fun x hx => h x (by simp [hx])
    simp [List.foldl, ha, ih h']

/-- `listMax` of an all-zero list is zero. -/
lemma listMax_zeros (l : List ℚ) (h : ∀ x ∈ l, x = 0) : listMax l = 0 := by
  cases l with
  | nil => rfl
  | cons a l =>
    have ha : a = 0 := h a (by simp)
    have h' : ∀ x ∈ l, x = 0 := fun x hx => h x (by simp [hx])
    unfold listMax
    rw [ha]
    exact foldl_max_zeros l h'

/-- C9: comparing any nonempty numeric sample to itself yields PSI = 0 and
KS = 0 exactly: with identical bin percentages every PSI summand carries the
zero factor `actual% − expected%` (for every log function), and the
empirical-CDF gap vanishes pointwise. -/
theorem psi_ks_self_zero (ln : ℚ → ℚ) (A : List ℚ) (_hA : A ≠ []) :
    calculate_psi ln A A 10 = 0 ∧ calculate_ks_statistic A A = 0 := by
  constructor
  · unfold calculate_psi
    split
    · rfl
    · apply List.sum_eq_zero
      intro x hx
      simp only [List.mem_map] at hx
      obtain ⟨i, _, rfl⟩ := hx
      simp
  · unfold calculate_ks_statistic
    split
    · rfl
    · apply listMax_zeros
      intro x hx
      simp only [List.mem_map] at hx
      obtain ⟨y, _, rfl⟩ := hx
      simp

/-- Witness for C9 at the sample `[1, 2, 3]` and the identity log
function. -/
theorem psi_ks_self_zero_witness :
    (([1, 2, 3] : List ℚ) ≠ []) ∧
    (calculate_psi id [1, 2, 3] [1, 2, 3] 10 = 0 ∧
     calculate_ks_statistic [1, 2, 3] [1, 2, 3] = 0) :=
  ⟨by simp, psi_ks_self_zero id [1, 2, 3] (by simp)⟩

/-- C8: the drift computation is total — a missing model yields the empty
list and an untouched database (no error), every produced row comes from a
feature whose two samples both hold at least 10 values (features below the
threshold are omitted), and the rows persisted are exactly the rows
returned, so no row is persisted for a skipped feature. -/
theorem drift_insufficient_data_skipped (ln : ℚ → ℚ) (db : DB)
    (model_id now : ℕ) :
    (findModel db model_id = none →
      (calculate_drift_for_model ln db model_id now).1 = [] ∧
      (calculate_drift_for_model ln db model_id now).2 = db) ∧
    (∀ dm ∈ (calculate_drift_for_model ln db model_id now).1,
      10 ≤ (get_baseline_data db model_id dm.feature_name).length ∧
      10 ≤ (get_recent_data db model_id dm.feature_name).length) ∧
    ((calculate_drift_for_model ln db model_id now).2).drift_metrics =
      db.drift_metrics ++ (calculate_drift_for_model ln db model_id now).1 := by
  refine ⟨?_, ?_, ?_⟩
  · intro h
    unfold calculate_drift_for_model
    rw [h]
    exact ⟨rfl, rfl⟩
  · intro dm hdm
    rcases hfm : findModel db model_id with _ | m
    · unfold calculate_drift_for_model at hdm
      rw [hfm] at hdm
      simp at hdm
    · unfold calculate_drift_for_model at hdm
      rw [hfm] at hdm
      simp only [List.mem_filterMap] at hdm
      obtain ⟨name, _, hsome⟩ := hdm
      unfold mkDriftMetric at hsome
      by_cases hlen : ((get_baseline_data db model_id name).length < 10 ∨
          (get_recent_data db model_id name).length < 10)
      · rw [if_pos hlen] at hsome
        cases hsome
      · rw [if_neg hlen] at hsome
        push_neg at hlen
        obtain rfl := Option.some.inj hsome
        exact ⟨hlen.1, hlen.2⟩
  · rcases hfm : findModel db model_id with _ | m
    · unfold calculate_drift_for_model
      rw [hfm]
      simp
    · unfold calculate_drift_for_model
      rw [hfm]

/-- Witness for C8: on the empty database the model is missing, so the drift
computation returns the empty list and leaves the state untouched. -/
theorem drift_insufficient_data_skipped_witness :
    (calculate_drift_for_model id emptyDB 1 0).1 = [] ∧
    (calculate_drift_for_model id emptyDB 1 0).2 = emptyDB :=
  (drift_insufficient_data_skipped id emptyDB 1 0).1 rfl

/-- A created drift row carries the feature name it was created for. -/
lemma mkDriftMetric_feature_name (ln : ℚ → ℚ) (db : DB) (model_id now : ℕ)
    (name : String) (dm : DriftMetric)
    (h : mkDriftMetric ln db model_id now name = some dm) :
    dm.feature_name = name := by
  unfold mkDriftMetric at h
  by_cases hlen : ((get_baseline_data db model_id name).length < 10 ∨
      (get_recent_data db model_id name).length < 10)
  · rw [if_pos hlen] at h
    cases h
  · rw [if_neg hlen] at h
    obtain rfl := Option.some.inj h
    rfl

/-- When the target feature's samples are sufficient, the drift rows named
after the target are in bijection with the target's occurrences in the
monitored-feature list. -/
lemma filter_feature_rows_count (ln : ℚ → ℚ) (db : DB) (model_id now : ℕ)
    (target : String)
    (hsome : mkDriftMetric ln db model_id now target ≠ none) :
    ∀ names : List String,
      ((names.filterMap (mkDriftMetric ln db model_id now)).filter
        (fun dm => dm.feature_name == target)).length = names.count target := by
  intro names
  induction names with
  | nil => rfl
  | cons n ns ih =>
    rw [List.filterMap_cons]
    by_cases hn : n = target
    · subst hn
      cases hdm : mkDriftMetric ln db model_id now n with
      | none => exact absurd hdm hsome
      | some dm =>
        have hname : (dm.feature_name == n) = true := by
          rw [mkDriftMetric_feature_name ln db model_id now n dm hdm]
          simp
        simp [hname, List.count_cons, ih]
    · cases hdm : mkDriftMetric ln db model_id now n with
      | none => simp [List.count_cons, hn, ih]
      | some dm =>
        have hname : (dm.feature_name == target) = false := by
          rw [mkDriftMetric_feature_name ln db model_id now n dm hdm]
          simp [hn]
        simp [hname, List.count_cons, hn, ih]

lemma mem_insertAsc {α : Type} (key : α → ℕ) (x a : α) :
    ∀ l : List α, a ∈ insertAsc key x l ↔ a = x ∨ a ∈ l := by
  intro l
  induction l with
  | nil => simp [insertAsc]
  | cons y ys ih =>
    unfold insertAsc
    by_cases h : key x ≤ key y
    · rw [if_pos h]
      simp
    · rw [if_neg h]
      simp [ih]
      tauto

lemma mem_sortAsc {α : Type} (key : α → ℕ) (a : α) :
    ∀ l : List α, a ∈ sortAsc key l ↔ a ∈ l := by
  intro l
  induction l with
  | nil => simp [sortAsc]
  | cons y ys ih =>
    unfold sortAsc
    rw [mem_insertAsc]
    simp [ih]

lemma mem_insertDesc {α : Type} (key : α → ℕ) (x a : α) :
    ∀ l : List α, a ∈ insertDesc key x l ↔ a = x ∨ a ∈ l := by
  intro l
  induction l with
  | nil => simp [insertDesc]
  | cons y ys ih =>
    unfold insertDesc
    by_cases h : key x ≥ key y
    · rw [if_pos h]
      simp
    · rw [if_neg h]
      simp [ih]
      tauto

lemma mem_sortDesc {α : Type} (key : α → ℕ) (a : α) :
    ∀ l : List α, a ∈ sortDesc key l ↔ a ∈ l := by
  intro l
  induction l with
  | nil => simp [sortDesc]
  | cons y ys ih =>
    unfold sortDesc
    rw [mem_insertDesc]
    simp [ih]

/-- A key present among a feature map's keys is found by the lookup. -/
lemma lookupFeature_isSome (name : String) :
    ∀ features : List (String × FValue),
      name ∈ features.map Prod.fst → ∃ v, lookupFeature features name = some v := by
  intro features
  induction features with
  | nil => simp
  | cons kv rest ih =>
    intro h
    by_cases hk : (kv.1 == name) = true
    · exact ⟨kv.2, by simp [lookupFeature, List.find?, hk]⟩
    · have hne : ¬ name = kv.1 := by
        intro he
        exact hk (by simp [he])
      have hrest : name ∈ rest.map Prod.fst := by
        rw [List.map_cons] at h
        rcases List.mem_cons.mp h with h1 | h1
        · exact absurd h1 hne
        · exact h1
      obtain ⟨v, hv⟩ := ih hrest
      refine ⟨v, ?_⟩
      unfold lookupFeature at hv ⊢
      simp only [List.find?, hk]
      exact hv

/-- On a log whose feature map holds the key, the sample-extraction step
reads the feature value (the key-membership branch), never the stored
prediction score. -/
lemma extractFeature_of_mem (name : String) (log : PredictionLog)
    (h : name ∈ log.input_features.map Prod.fst) :
    extractFeature name log =
      (lookupFeature log.input_features name).bind FValue.toFloat? := by
  obtain ⟨v, hv⟩ := lookupFeature_isSome name log.input_features h
  unfold extractFeature
  rw [hv]
  rfl

/-- C10: when the first prediction log carries an input feature literally
named `"prediction"` (with the JSON object's keys unique), the monitored
feature list is the keys of `input_features` with `"prediction"` appended
unconditionally — so that name is monitored twice — and, when its samples
are sufficient, one run creates exactly two `DriftMetric` rows named
`"prediction"`; moreover, whenever a log carries the key, both samples draw
that log's value from `input_features["prediction"]` (the key-membership
branch) rather than from the stored prediction score. -/
theorem prediction_feature_monitored_twice (ln : ℚ → ℚ) (db : DB)
    (model_id now : ℕ) (m : ModelRegistry) (l0 : PredictionLog)
    (hm : findModel db model_id = some m)
    (h0 : (logsFor db model_id).head? = some l0)
    (hkey : "prediction" ∈ l0.input_features.map Prod.fst)
    (hnodup : (l0.input_features.map Prod.fst).Nodup)
    (hbase : 10 ≤ (get_baseline_data db model_id "prediction").length)
    (hrec : 10 ≤ (get_recent_data db model_id "prediction").length) :
    features_to_monitor db model_id =
      l0.input_features.map Prod.fst ++ ["prediction"] ∧
    (features_to_monitor db model_id).count "prediction" = 2 ∧
    ((calculate_drift_for_model ln db model_id now).1.filter
      (fun dm => dm.feature_name == "prediction")).length = 2 ∧
    ((∀ log ∈ logsFor db model_id,
        "prediction" ∈ log.input_features.map Prod.fst) →
      get_baseline_data db model_id "prediction" =
        ((sortAsc PredictionLog.timestamp (logsFor db model_id)).take
            100).filterMap
          (fun log => (lookupFeature log.input_features "prediction").bind
            FValue.toFloat?) ∧
      get_recent_data db model_id "prediction" =
        ((sortDesc PredictionLog.timestamp (logsFor db model_id)).take
            settings.DRIFT_WINDOW_SIZE).filterMap
          (fun log => (lookupFeature log.input_features "prediction").bind
            FValue.toFloat?)) := by
  have hne : l0.input_features.isEmpty = false := by
    cases hfe : l0.input_features with
    | nil => rw [hfe] at hkey; simp at hkey
    | cons a b => rfl
  have hfeat : features_to_monitor db model_id =
      l0.input_features.map Prod.fst ++ ["prediction"] := by
    unfold features_to_monitor
    rw [h0]
    simp [hne]
  have hcount : (features_to_monitor db model_id).count "prediction" = 2 := by
    rw [hfeat, List.count_append]
    rw [List.count_eq_one_of_mem hnodup hkey]
    rfl
  refine ⟨hfeat, hcount, ?_, ?_⟩
  · have hsome : mkDriftMetric ln db model_id now "prediction" ≠ none := by
      unfold mkDriftMetric
      rw [if_neg (by omega)]
      simp
    unfold calculate_drift_for_model
    rw [hm]
    simp only
    rw [filter_feature_rows_count ln db model_id now "prediction" hsome
      (features_to_monitor db model_id), hcount]
  · intro hall
    constructor
    · unfold get_baseline_data
      rw [hm]
      apply List.filterMap_congr
      intro log hlog
      have hmemlog : log ∈ logsFor db model_id := by
        have h1 : log ∈ sortAsc PredictionLog.timestamp (logsFor db model_id) :=
          List.take_subset _ _ hlog
        exact (mem_sortAsc PredictionLog.timestamp log _).mp h1
      exact extractFeature_of_mem "prediction" log (hall log hmemlog)
    · unfold get_recent_data
      apply List.filterMap_congr
      intro log hlog
      have hmemlog : log ∈ logsFor db model_id := by
        have h1 : log ∈ sortDesc PredictionLog.timestamp (logsFor db model_id) :=
          List.take_subset _ _ hlog
        exact (mem_sortDesc PredictionLog.timestamp log _).mp h1
      exact extractFeature_of_mem "prediction" log (hall log hmemlog)

/-- Witness for C10: twelve logs that all carry the feature `"prediction"`
produce exactly two `"prediction"` drift rows, and both samples come from
the feature map. -/
theorem prediction_feature_monitored_twice_witness :
    features_to_monitor dbPredFeature 1 =
      (logPredFeature 0).input_features.map Prod.fst ++ ["prediction"] ∧
    (features_to_monitor dbPredFeature 1).count "prediction" = 2 ∧
    ((calculate_drift_for_model id dbPredFeature 1 99).1.filter
      (fun dm => dm.feature_name == "prediction")).length = 2 ∧
    ((∀ log ∈ logsFor dbPredFeature 1,
        "prediction" ∈ log.input_features.map Prod.fst) →
      get_baseline_data dbPredFeature 1 "prediction" =
        ((sortAsc PredictionLog.timestamp (logsFor dbPredFeature 1)).take
            100).filterMap
          (fun log => (lookupFeature log.input_features "prediction").bind
            FValue.toFloat?) ∧
      get_recent_data dbPredFeature 1 "prediction" =
        ((sortDesc PredictionLog.timestamp (logsFor dbPredFeature 1)).take
            settings.DRIFT_WINDOW_SIZE).filterMap
          (fun log => (lookupFeature log.input_features "prediction").bind
            FValue.toFloat?)) :=
  prediction_feature_monitored_twice id dbPredFeature 1 99 modelDemo
    (logPredFeature 0) (by rfl) (by rfl) (by simp [logPredFeature])
    (by simp [logPredFeature]) (by decide) (by decide)

/-! ## Fairness grouping: fold characterization -/

lemma incStat_total (o : Option GroupStat) (b : Bool) :
    (incStat o b).total = optTotal o + 1 := by
  cases o <;> simp [incStat, optTotal]

lemma incStat_positive (o : Option GroupStat) (b : Bool) :
    (incStat o b).positive = optPositive o + (if b then 1 else 0) := by
  cases o <;> simp [incStat, optPositive]

lemma findStat_cons_ne (k : String) (st : GroupStat)
    (rest : List (String × GroupStat)) (g : String) (h : (k == g) = false) :
    findStat ((k, st) :: rest) g = findStat rest g := by
  unfold findStat
  simp [List.find?, h]

lemma findStat_cons_self (k : String) (st : GroupStat)
    (rest : List (String × GroupStat)) :
    findStat ((k, st) :: rest) k = some st := by
  unfold findStat
  simp [List.find?]

lemma bumpGroup_cons_ne (g' : String) (b : Bool) (k : String) (st : GroupStat)
    (rest : List (String × GroupStat)) (h : (k == g') = false) :
    bumpGroup g' b ((k, st) :: rest) = (k, st) :: bumpGroup g' b rest := by
  conv_lhs => unfold bumpGroup
  rw [h]
  simp

lemma bumpGroup_cons_self (g' : String) (b : Bool) (st : GroupStat)
    (rest : List (String × GroupStat)) :
    bumpGroup g' b ((g', st) :: rest) =
      (g', { total := st.total + 1,
             positive := st.positive + if b then 1 else 0 }) :: rest := by
  conv_lhs => unfold bumpGroup
  simp

lemma findStat_bumpGroup (g' g : String) (b : Bool) :
    ∀ stats : List (String × GroupStat),
      findStat (bumpGroup g' b stats) g =
        if g = g' then some (incStat (findStat stats g') b)
        else findStat stats g := by
  intro stats
  induction stats with
  | nil =>
    by_cases hg : g = g'
    · subst hg
      simp [bumpGroup, findStat, List.find?, incStat]
    · have hgb : (g' == g) = false := beq_eq_false_iff_ne.mpr (Ne.symm hg)
      simp [bumpGroup, findStat, List.find?, hg, hgb]
  | cons e rest ih =>
    obtain ⟨k, st⟩ := e
    by_cases hk : k = g'
    · subst hk
      rw [bumpGroup_cons_self]
      by_cases hg : g = k
      · subst hg
        rw [findStat_cons_self, findStat_cons_self]
        simp [incStat]
      · have hkg : (k == g) = false := beq_eq_false_iff_ne.mpr (Ne.symm hg)
        rw [findStat_cons_ne k _ rest g hkg, findStat_cons_ne k st rest g hkg,
          if_neg hg]
    · have hkb : (k == g') = false := beq_eq_false_iff_ne.mpr hk
      rw [bumpGroup_cons_ne g' b k st rest hkb]
      by_cases hg : g = k
      · rw [hg]
        rw [findStat_cons_self, findStat_cons_self, if_neg hk]
      · have hkg : (k == g) = false := beq_eq_false_iff_ne.mpr (Ne.symm hg)
        rw [findStat_cons_ne k st (bumpGroup g' b rest) g hkg,
          findStat_cons_ne k st rest g hkg,
          findStat_cons_ne k st rest g' hkb]
        exact ih

lemma keys_bumpGroup (g' : String) (b : Bool) :
    ∀ stats : List (String × GroupStat),
      (bumpGroup g' b stats).map Prod.fst =
        if g' ∈ stats.map Prod.fst then stats.map Prod.fst
        else stats.map Prod.fst ++ [g'] := by
  intro stats
  induction stats with
  | nil => simp [bumpGroup]
  | cons e rest ih =>
    obtain ⟨k, st⟩ := e
    by_cases hk : k = g'
    · subst hk
      rw [bumpGroup_cons_self]
      simp
    · have hkb : (k == g') = false := beq_eq_false_iff_ne.mpr hk
      have hne : ¬ g' = k := fun h => hk h.symm
      rw [bumpGroup_cons_ne g' b k st rest hkb]
      simp only [List.map_cons]
      rw [ih]
      by_cases hmem : g' ∈ rest.map Prod.fst
      · simp [hmem, hne]
      · simp [hmem, hne]

lemma groupStep_none (attr : String) (stats : List (String × GroupStat))
    (log : PredictionLog) (h : logGroup attr log = none) :
    groupStep attr stats log = stats := by
  unfold groupStep
  rw [h]

lemma groupStep_some (attr : String) (stats : List (String × GroupStat))
    (log : PredictionLog) (g : String) (h : logGroup attr log = some g) :
    groupStep attr stats log =
      bumpGroup g (decide (log.prediction > 0.5)) stats := by
  unfold groupStep
  rw [h]

lemma keys_nodup_fold (attr : String) :
    ∀ (logs : List PredictionLog) (stats : List (String × GroupStat)),
      (stats.map Prod.fst).Nodup →
      ((logs.foldl (groupStep attr) stats).map Prod.fst).Nodup := by
  intro logs
  induction logs with
  | nil => intro stats h; simpa using h
  | cons log rest ih =>
    intro stats h
    simp only [List.foldl_cons]
    rcases hlg : logGroup attr log with _ | g
    · rw [groupStep_none attr stats log hlg]
      exact ih stats h
    · rw [groupStep_some attr stats log g hlg]
      apply ih
      rw [keys_bumpGroup]
      by_cases hmem : g ∈ stats.map Prod.fst
      · rw [if_pos hmem]; exact h
      · rw [if_neg hmem]
        simp [List.nodup_append, h, hmem]

lemma foldl_group_counts (attr g : String) :
    ∀ (logs : List PredictionLog) (stats : List (String × GroupStat)),
      optTotal (findStat (logs.foldl (groupStep attr) stats) g) =
        optTotal (findStat stats g) +
          logs.countP (fun log => logGroup attr log == some g) ∧
      optPositive (findStat (logs.foldl (groupStep attr) stats) g) =
        optPositive (findStat stats g) +
          logs.countP (fun log =>
            (logGroup attr log == some g) && decide (log.prediction > 0.5)) := by
  intro logs
  induction logs with
  | nil => intro stats; simp
  | cons log rest ih =>
    intro stats
    simp only [List.foldl_cons, List.countP_cons]
    rcases hlg : logGroup attr log with _ | g0
    · rw [groupStep_none attr stats log hlg]
      have h := ih stats
      have hco : ((none : Option String) == some g) = false := rfl
      refine ⟨?_, ?_⟩
      · rw [h.1]
        simp [hco]
      · rw [h.2]
        simp [hco]
    · rw [groupStep_some attr stats log g0 hlg]
      have h := ih (bumpGroup g0 (decide (log.prediction > 0.5)) stats)
      rw [findStat_bumpGroup g0 g (decide (log.prediction > 0.5)) stats] at h
      by_cases hg : g = g0
      · rw [if_pos hg] at h
        subst hg
        have hbeq : ((some g == some g) : Bool) = true := by simp
        refine ⟨?_, ?_⟩
        · rw [h.1]
          simp only [optTotal, incStat_total]
          simp [hbeq]
          omega
        · rw [h.2]
          simp only [optPositive, incStat_positive]
          simp only [hbeq, Bool.true_and]
          cases hd : decide (log.prediction > 0.5) <;> simp
          all_goals omega
      · rw [if_neg hg] at h
        have hco : ((some g0 == some g) : Bool) = false := by
          simp only [beq_eq_false_iff_ne, ne_eq, Option.some.injEq]
          exact fun hh => hg hh.symm
        refine ⟨?_, ?_⟩
        · rw [h.1]
          simp [hco]
        · rw [h.2]
          simp [hco]

lemma bumpGroup_total_pos (g' : String) (b : Bool) :
    ∀ stats : List (String × GroupStat),
      (∀ e ∈ stats, 1 ≤ e.2.total) →
      ∀ e ∈ bumpGroup g' b stats, 1 ≤ e.2.total := by
  intro stats
  induction stats with
  | nil =>
    intro _ e he
    simp [bumpGroup] at he
    subst he
    simp
  | cons x rest ih =>
    intro h e he
    obtain ⟨k, st⟩ := x
    unfold bumpGroup at he
    by_cases hk : (k == g') = true
    · rw [if_pos hk] at he
      rcases List.mem_cons.mp he with rfl | hrest
      · simp
      · exact h _ (List.mem_cons_of_mem _ hrest)
    · rw [if_neg hk] at he
      rcases List.mem_cons.mp he with rfl | hrest
      · exact h _ (List.mem_cons_self _ _)
      · exact ih (fun e' he' => h e' (List.mem_cons_of_mem _ he')) e hrest

lemma fold_total_pos (attr : String) :
    ∀ (logs : List PredictionLog) (stats : List (String × GroupStat)),
      (∀ e ∈ stats, 1 ≤ e.2.total) →
      ∀ e ∈ logs.foldl (groupStep attr) stats, 1 ≤ e.2.total := by
  intro logs
  induction logs with
  | nil => intro stats h; simpa using h
  | cons log rest ih =>
    intro stats h
    simp only [List.foldl_cons]
    rcases hlg : logGroup attr log with _ | g
    · rw [groupStep_none attr stats log hlg]
      exact ih stats h
    · rw [groupStep_some attr stats log g hlg]
      exact ih _ (bumpGroup_total_pos g _ stats h)

lemma findStat_of_mem :
    ∀ (stats : List (String × GroupStat)) (g : String) (st : GroupStat),
      (stats.map Prod.fst).Nodup → (g, st) ∈ stats →
      findStat stats g = some st := by
  intro stats
  induction stats with
  | nil =>
    intro g st _ h
    simp at h
  | cons x rest ih =>
    intro g st hnd hmem
    obtain ⟨k, st'⟩ := x
    rw [List.map_cons, List.nodup_cons] at hnd
    rcases List.mem_cons.mp hmem with heq | hrest
    · injection heq with h1 h2
      subst h1
      subst h2
      simp [findStat, List.find?]
    · have hkne : k ≠ g := by
        intro he
        subst he
        exact hnd.1 (List.mem_map.mpr ⟨(k, st), hrest, rfl⟩)
      have hkb : (k == g) = false := beq_eq_false_iff_ne.mpr hkne
      have := ih g st hnd.2 hrest
      unfold findStat at this ⊢
      simp only [List.find?, hkb]
      exact this

/-- With no prediction logs or no observed group, the fairness run produces
no rows. -/
lemma calculate_fairness_groups_empty (db : DB) (model_id : ℕ) (attr : String)
    (now : ℕ) (h : groupStats attr (logsFor db model_id) = []) :
    ((calculate_fairness_for_model db model_id attr now).1).groups = [] := by
  by_cases hl : (logsFor db model_id).isEmpty
  · simp [calculate_fairness_for_model, hl]
  · simp [calculate_fairness_for_model, hl, h]

/-- When at least one group is observed, the produced rows are exactly one
per group tally, each stamped with the shared disparity and flag. -/
lemma calculate_fairness_groups_eq (db : DB) (model_id : ℕ) (attr : String)
    (now : ℕ) (hgs : groupStats attr (logsFor db model_id) ≠ []) :
    ((calculate_fairness_for_model db model_id attr now).1).groups =
      (groupStats attr (logsFor db model_id)).map (fun e =>
        ({ model_id := model_id, protected_attribute := attr,
           group_name := e.1, total_predictions := e.2.total,
           positive_predictions := e.2.positive,
           approval_rate := approvalRate e.2,
           disparity_score :=
             listMax ((groupStats attr (logsFor db model_id)).map
                 (fun e2 => approvalRate e2.2)) -
               listMin ((groupStats attr (logsFor db model_id)).map
                 (fun e2 => approvalRate e2.2)),
           fairness_flag :=
             decide (listMax ((groupStats attr (logsFor db model_id)).map
                 (fun e2 => approvalRate e2.2)) -
               listMin ((groupStats attr (logsFor db model_id)).map
                 (fun e2 => approvalRate e2.2)) > get_fairness_threshold db),
           timestamp := now } : FairnessMetric)) := by
  have hlogs : (logsFor db model_id).isEmpty = false := by
    cases hl : logsFor db model_id with
    | nil =>
      exfalso
      apply hgs
      unfold groupStats
      rw [hl]
      rfl
    | cons a l => rfl
  have hgsb : (groupStats attr (logsFor db model_id)).isEmpty = false := by
    cases hg : groupStats attr (logsFor db model_id) with
    | nil => exact absurd hg hgs
    | cons a l => rfl
  have hrates : (((groupStats attr (logsFor db model_id)).map
      (fun e => approvalRate e.2)).isEmpty) = false := by
    cases hg : groupStats attr (logsFor db model_id) with
    | nil => exact absurd hg hgs
    | cons a l => rfl
  simp only [calculate_fairness_for_model]
  rw [hlogs, hgsb, hrates]
  simp

/-- C4: every fairness run stamps an identical disparity on all its rows.
Each persisted `FairnessMetric` row of one run carries `disparity_score`
equal to max − min of the run's rows' approval rates; its own
`approval_rate` equals `positive_predictions / total_predictions`; those two
fields count exactly the model's logs whose attribute value names the row's
group, positives being the predictions strictly above 0.5; and the run emits
one row per distinct observed group value. -/
theorem fairness_rows_share_disparity (db : DB) (model_id : ℕ)
    (protected_attribute : String) (now : ℕ) (fm : FairnessMetric)
    (hfm : fm ∈ ((calculate_fairness_for_model db model_id
      protected_attribute now).1).groups) :
    fm.disparity_score =
      listMax ((((calculate_fairness_for_model db model_id protected_attribute
          now).1).groups).map FairnessMetric.approval_rate) -
        listMin ((((calculate_fairness_for_model db model_id protected_attribute
          now).1).groups).map FairnessMetric.approval_rate) ∧
    fm.approval_rate =
      (fm.positive_predictions : ℚ) / (fm.total_predictions : ℚ) ∧
    fm.total_predictions =
      (logsFor db model_id).countP (fun log =>
        logGroup protected_attribute log == some fm.group_name) ∧
    fm.positive_predictions =
      (logsFor db model_id).countP (fun log =>
        (logGroup protected_attribute log == some fm.group_name) &&
          decide (log.prediction > 0.5)) ∧
    ((((calculate_fairness_for_model db model_id protected_attribute
      now).1).groups).map FairnessMetric.group_name).Nodup := by
  have hgs : groupStats protected_attribute (logsFor db model_id) ≠ [] := by
    intro h
    rw [calculate_fairness_groups_empty db model_id protected_attribute now h]
      at hfm
    simp at hfm
  have hchar := calculate_fairness_groups_eq db model_id protected_attribute
    now hgs
  have hnodup : ((groupStats protected_attribute (logsFor db model_id)).map
      Prod.fst).Nodup := by
    unfold groupStats
    exact keys_nodup_fold protected_attribute (logsFor db model_id) [] (by simp)
  rw [hchar] at hfm
  simp only [List.mem_map] at hfm
  obtain ⟨e, he, rfl⟩ := hfm
  obtain ⟨g, st⟩ := e
  have hfind : findStat (groupStats protected_attribute (logsFor db model_id))
      g = some st := findStat_of_mem _ g st hnodup he
  have hcounts := foldl_group_counts protected_attribute g
    (logsFor db model_id) []
  have htotal : st.total = (logsFor db model_id).countP (fun log =>
      logGroup protected_attribute log == some g) := by
    have h1 := hcounts.1
    unfold groupStats at hfind
    rw [hfind] at h1
    simpa [optTotal, findStat] using h1
  have hpositive : st.positive = (logsFor db model_id).countP (fun log =>
      (logGroup protected_attribute log == some g) &&
        decide (log.prediction > 0.5)) := by
    have h2 := hcounts.2
    unfold groupStats at hfind
    rw [hfind] at h2
    simpa [optPositive, findStat] using h2
  have hpos : 0 < st.total := by
    apply fold_total_pos protected_attribute (logsFor db model_id) []
      (by simp) (g, st)
    unfold groupStats at he
    exact he
  refine ⟨?_, ?_, ?_, ?_, ?_⟩
  · rw [hchar]
    simp only [List.map_map]
    rfl
  · simp [approvalRate, hpos]
  · simpa using htotal
  · simpa using hpositive
  · rw [hchar]
    simp only [List.map_map]
    exact hnodup

/-- Evaluating the grouping loop on the two-group fixture: group "A" sees 10
logs with 7 positives, group "B" sees 20 logs with 9 positives. -/
lemma dbFair_stats :
    groupStats "gender" (logsFor dbFair 1) =
      [("A", ⟨10, 7⟩), ("B", ⟨20, 9⟩)] := by
  norm_num [groupStats, groupStep, logsFor, dbFair, emptyDB, fairLogs, mkFairLog,
    List.replicate, logGroup, lookupFeature, List.find?, FValue.toStr, bumpGroup]
  decide

/-- The group-"A" row of the two-group fixture is among the produced rows. -/
lemma fmA_mem :
    fmA ∈ ((calculate_fairness_for_model dbFair 1 "gender" 5).1).groups := by
  rw [calculate_fairness_groups_eq dbFair 1 "gender" 5
    (by rw [dbFair_stats]; simp)]
  rw [dbFair_stats]
  simp only [List.map_cons, List.map_nil]
  apply List.mem_cons.mpr
  left
  norm_num [fmA, approvalRate, listMax, listMin, max_def, min_def,
    get_fairness_threshold, activePolicy, dbFair, emptyDB, policyDemo]

/-- Witness for C4 at the spec's two-group vector: rates 0.70 and 0.45 give
the "A" row disparity max − min = 0.25, the shared value of the run. -/
theorem fairness_rows_share_disparity_witness :
    fmA ∈ ((calculate_fairness_for_model dbFair 1 "gender" 5).1).groups ∧
    (fmA.disparity_score =
      listMax ((((calculate_fairness_for_model dbFair 1 "gender"
          5).1).groups).map FairnessMetric.approval_rate) -
        listMin ((((calculate_fairness_for_model dbFair 1 "gender"
          5).1).groups).map FairnessMetric.approval_rate) ∧
    fmA.approval_rate =
      (fmA.positive_predictions : ℚ) / (fmA.total_predictions : ℚ) ∧
    fmA.total_predictions =
      (logsFor dbFair 1).countP (fun log =>
        logGroup "gender" log == some fmA.group_name) ∧
    fmA.positive_predictions =
      (logsFor dbFair 1).countP (fun log =>
        (logGroup "gender" log == some fmA.group_name) &&
          decide (log.prediction > 0.5)) ∧
    ((((calculate_fairness_for_model dbFair 1 "gender"
      5).1).groups).map FairnessMetric.group_name).Nodup) :=
  ⟨fmA_mem, fairness_rows_share_disparity dbFair 1 "gender" 5 fmA fmA_mem⟩

end DriftGuard
